import Mathlib

/-!
Verification development for the system-diagnostics tool server
(`system_diagnostics_mcp/server.py`).  The Python source is shallowly
embedded: pure computations become Lean functions over `ℚ`/`Int`/`String`,
OS data sources (psutil counters, process enumeration, battery readings)
become explicit environment records, and Python's `try/except` becomes
`Except`.  Python's stable `list.sort` is modelled by `List.insertionSort`
(also stable), Python's floor division `//` and modulo `%` by `Int.fdiv` /
`Int.fmod` (floor semantics), and Python slicing `l[:limit]` by `pySlice`.
-/

namespace SysDiag

/-- A default value appearing in a tool's declared input schema. -/
inductive DefaultVal where
  | bool (b : Bool)
  | int (n : Int)
  | str (s : String)
deriving DecidableEq, Repr

/-- One parameter of a tool's input schema: name, JSON type, declared
default, and (when present) the declared enum of admissible values. -/
structure ToolParam where
  pname : String
  ptype : String
  defaultVal : Option DefaultVal
  enum : Option (List String) := none
deriving DecidableEq, Repr

/-- A tool descriptor, as produced by `handle_list_tools`. -/
structure Tool where
  name : String
  description : String
  params : List ToolParam
deriving DecidableEq, Repr

/-- Embedding of `handle_list_tools` (server.py lines 69-279): the fixed
catalog of thirteen tool descriptors, in declaration order. -/
def handle_list_tools : Unit → List Tool := fun _ =>
  [ { name := "get_system_info",
      description := "Get comprehensive system information including OS, hardware, and boot time",
      params := [] },
    { name := "get_cpu_metrics",
      description := "Get detailed CPU metrics including usage, frequency, temperature (if available)",
      params := [
        { pname := "per_core", ptype := "boolean", defaultVal := some (.bool false) },
        { pname := "interval", ptype := "number", defaultVal := some (.int 1) } ] },
    { name := "get_memory_metrics",
      description := "Get detailed memory usage including RAM, swap, and per-process memory",
      params := [
        { pname := "include_processes", ptype := "boolean", defaultVal := some (.bool false) } ] },
    { name := "get_storage_metrics",
      description := "Get storage information for all drives including SSDs, HDDs, and usage",
      params := [
        { pname := "include_io_stats", ptype := "boolean", defaultVal := some (.bool false) } ] },
    { name := "get_network_metrics",
      description := "Get network interface information and statistics",
      params := [
        { pname := "include_connections", ptype := "boolean", defaultVal := some (.bool false) } ] },
    { name := "get_processes",
      description := "Get information about running processes",
      params := [
        { pname := "sort_by", ptype := "string", defaultVal := some (.str "cpu"),
          enum := some ["cpu", "memory", "name", "pid"] },
        { pname := "limit", ptype := "integer", defaultVal := some (.int 20) } ] },
    { name := "get_installed_applications",
      description := "Get list of installed applications on the system",
      params := [
        { pname := "category", ptype := "string", defaultVal := some (.str "all") } ] },
    { name := "get_battery_status",
      description := "Get battery status and power consumption information",
      params := [] },
    { name := "get_system_logs",
      description := "Get recent system logs and events",
      params := [
        { pname := "log_type", ptype := "string", defaultVal := some (.str "system"),
          enum := some ["system", "application", "security", "all"] },
        { pname := "limit", ptype := "integer", defaultVal := some (.int 100) } ] },
    { name := "diagnose_performance",
      description := "Run performance diagnostics and identify bottlenecks",
      params := [
        { pname := "duration", ptype := "integer", defaultVal := some (.int 5) } ] },
    { name := "get_hardware_recommendations",
      description := "Get hardware upgrade recommendations based on system analysis",
      params := [
        { pname := "use_case", ptype := "string", defaultVal := some (.str "general"),
          enum := some ["gaming", "productivity", "development", "content_creation", "general"] } ] },
    { name := "get_motherboard_details",
      description := "Get detailed motherboard information including manufacturer, model, BIOS, and hardware specifications",
      params := [
        { pname := "include_bios", ptype := "boolean", defaultVal := some (.bool true) },
        { pname := "include_slots", ptype := "boolean", defaultVal := some (.bool true) } ] },
    { name := "get_computer_model",
      description := "Get computer model and manufacturer information from the system",
      params := [
        { pname := "include_details", ptype := "boolean", defaultVal := some (.bool true) } ] } ]

/-- One text content block of a tool result (`types.TextContent`). -/
structure TextContent where
  type : String
  text : String
deriving DecidableEq, Repr

/-- The thirteen tool names recognised by `handle_call_tool`, in dispatch
order (server.py lines 284-309). -/
def registeredToolNames : List String :=
  ["get_system_info", "get_cpu_metrics", "get_memory_metrics", "get_storage_metrics",
   "get_network_metrics", "get_processes", "get_installed_applications", "get_battery_status",
   "get_system_logs", "diagnose_performance", "get_hardware_recommendations",
   "get_motherboard_details", "get_computer_model"]

/-- The `try/except` shape shared by every handler, parameterised by the
handler's own error-message prefix: a successful body yields its rendered
text, an internal failure is converted into a single text block
`errPrefix ++ e`.  Eleven handlers end with `except` clauses producing
`"Error: {e}"`, while `get_computer_model` (server.py line 1271) produces
`"Error retrieving computer model information: {e}"` and
`get_motherboard_details` (line 1359) produces
`"Error retrieving motherboard details: {e}"`. -/
def wrapHandler (errPrefix : String) (body : Except String String) : TextContent :=
  match body with
  | .ok t => { type := "text", text := t }
  | .error e => { type := "text", text := errPrefix ++ e }

/-- The error text each registered handler's `except` clause produces for
an internal failure `e`: the two hardware-inventory tools use their own
longer prefixes, every other handler uses `"Error: "`. -/
def handlerErrorText (name : String) (e : String) : String :=
  if name = "get_computer_model" then
    "Error retrieving computer model information: " ++ e
  else if name = "get_motherboard_details" then
    "Error retrieving motherboard details: " ++ e
  else "Error: " ++ e

/-- A dispatch-level failure of `handle_call_tool`: the `ValueError` raised
for a tool name outside the registered thirteen. -/
inductive DispatchError where
  | unknownTool (name : String)
deriving DecidableEq, Repr

/-- Embedding of the dispatcher `handle_call_tool` (server.py lines
281-311).  `bodies` supplies, per tool name, the outcome of that handler's
`try` body (`.error` = the body raised internally); the dispatcher routes a
registered name to its handler — whose own `except` clause absorbs the
failure into that handler's error text — and raises for any other name. -/
def handle_call_tool (bodies : String → Except String String) (name : String) :
    Except DispatchError (List TextContent) :=
  if name = "get_system_info" then .ok [wrapHandler "Error: " (bodies name)]
  else if name = "get_cpu_metrics" then .ok [wrapHandler "Error: " (bodies name)]
  else if name = "get_memory_metrics" then .ok [wrapHandler "Error: " (bodies name)]
  else if name = "get_storage_metrics" then .ok [wrapHandler "Error: " (bodies name)]
  else if name = "get_network_metrics" then .ok [wrapHandler "Error: " (bodies name)]
  else if name = "get_processes" then .ok [wrapHandler "Error: " (bodies name)]
  else if name = "get_installed_applications" then .ok [wrapHandler "Error: " (bodies name)]
  else if name = "get_battery_status" then .ok [wrapHandler "Error: " (bodies name)]
  else if name = "get_system_logs" then .ok [wrapHandler "Error: " (bodies name)]
  else if name = "diagnose_performance" then .ok [wrapHandler "Error: " (bodies name)]
  else if name = "get_hardware_recommendations" then .ok [wrapHandler "Error: " (bodies name)]
  else if name = "get_motherboard_details" then
    .ok [wrapHandler "Error retrieving motherboard details: " (bodies name)]
  else if name = "get_computer_model" then
    .ok [wrapHandler "Error retrieving computer model information: " (bodies name)]
  else .error (.unknownTool name)

/-- Python's `round(x, 2)`: rounding to two decimal places, as
`⌊100·x + 1/2⌋ / 100`.  (Python uses round-half-even on binary floats; the
half-way tie case never matters for the properties proved here.) -/
def round2 (x : ℚ) : ℚ := ((⌊100 * x + 1 / 2⌋ : ℤ) : ℚ) / 100

/-- Python's list slicing `l[:limit]` for an arbitrary integer `limit`: a
non-negative `limit` keeps the first `limit` elements, a negative one drops
the last `|limit|` elements. -/
def pySlice {α : Type} (l : List α) (limit : Int) : List α :=
  if 0 ≤ limit then l.take limit.toNat else l.take (l.length - (-limit).toNat)

/-- An exception raised by psutil while reading one process mid-enumeration
(`psutil.NoSuchProcess` / `psutil.AccessDenied`). -/
inductive PsError where
  | noSuchProcess
  | accessDenied
deriving DecidableEq, Repr

/-- The raw per-process fields requested from `psutil.process_iter` in
`get_processes` (the creation timestamp is carried already rendered, the
`strftime` formatting being an opaque datetime operation). -/
structure RawProc where
  pid : Int
  name : String
  cpu_percent : ℚ
  memory_percent : ℚ
  status : String
  num_threads : Int
  created : String
deriving DecidableEq, Repr

/-- One entry of the process list built by `get_processes` (server.py lines
639-647): percentages rounded to two decimals. -/
structure ProcEntry where
  pid : Int
  name : String
  cpu_percent : ℚ
  memory_percent : ℚ
  status : String
  threads : Int
  created : String
deriving DecidableEq, Repr

/-- Building one returned process record from the raw psutil fields. -/
def buildProcEntry (p : RawProc) : ProcEntry :=
  { pid := p.pid, name := p.name, cpu_percent := round2 p.cpu_percent,
    memory_percent := round2 p.memory_percent, status := p.status,
    threads := p.num_threads, created := p.created }

/-- Descending order on rounded CPU percentage (`sort_by == "cpu"`,
`reverse=True`). -/
def cpuDesc (a b : ProcEntry) : Prop := b.cpu_percent ≤ a.cpu_percent

/-- Descending order on rounded memory percentage (`sort_by == "memory"`,
`reverse=True`). -/
def memDesc (a b : ProcEntry) : Prop := b.memory_percent ≤ a.memory_percent

/-- Ascending order on process name (`sort_by == "name"`). -/
def nameAsc (a b : ProcEntry) : Prop := a.name ≤ b.name

/-- Ascending order on pid (`sort_by == "pid"`). -/
def pidAsc (a b : ProcEntry) : Prop := a.pid ≤ b.pid

instance : DecidableRel cpuDesc :=
  fun a b => inferInstanceAs (Decidable (b.cpu_percent ≤ a.cpu_percent))

instance : DecidableRel memDesc :=
  fun a b => inferInstanceAs (Decidable (b.memory_percent ≤ a.memory_percent))

instance : DecidableRel nameAsc :=
  fun a b => inferInstanceAs (Decidable (a.name ≤ b.name))

instance : DecidableRel pidAsc :=
  fun a b => inferInstanceAs (Decidable (a.pid ≤ b.pid))

instance : IsTotal ProcEntry cpuDesc := ⟨fun a b => le_total b.cpu_percent a.cpu_percent⟩

instance : IsTotal ProcEntry memDesc := ⟨fun a b => le_total b.memory_percent a.memory_percent⟩

instance : IsTotal ProcEntry nameAsc := ⟨fun a b => le_total a.name b.name⟩

instance : IsTotal ProcEntry pidAsc := ⟨fun a b => le_total a.pid b.pid⟩

instance : IsTrans ProcEntry cpuDesc := ⟨fun _ _ _ h h' => le_trans h' h⟩

instance : IsTrans ProcEntry memDesc := ⟨fun _ _ _ h h' => le_trans h' h⟩

instance : IsTrans ProcEntry nameAsc := ⟨fun _ _ _ h h' => le_trans h h'⟩

instance : IsTrans ProcEntry pidAsc := ⟨fun _ _ _ h h' => le_trans h h'⟩

/-- The `if/elif` sort step of `get_processes` (server.py lines 651-659):
Python's stable `list.sort` is modelled by the stable `insertionSort`; an
unrecognised `sort_by` leaves the list in enumeration order. -/
def sortProcesses (sort_by : String) (processes : List ProcEntry) : List ProcEntry :=
  if sort_by = "cpu" then processes.insertionSort cpuDesc
  else if sort_by = "memory" then processes.insertionSort memDesc
  else if sort_by = "name" then processes.insertionSort nameAsc
  else if sort_by = "pid" then processes.insertionSort pidAsc
  else processes

/-- The value returned by `get_processes`: the (sorted, truncated) process
list and the total count taken after sorting (sorting preserves length, so
this is the pre-truncation count). -/
structure ProcessesResult where
  processes : List ProcEntry
  total : Nat
deriving DecidableEq, Repr

/-- Embedding of `get_processes` (server.py lines 628-667).  `procIter` is
the psutil enumeration, each entry either a raw record or the exception it
raised; the loop's `except (NoSuchProcess, AccessDenied): pass` drops the
failing entries. -/
def get_processes (procIter : List (Except PsError RawProc)) (sort_by : String)
    (limit : Int) : ProcessesResult :=
  let processes := procIter.filterMap fun r =>
    match r with
    | .ok p => some (buildProcEntry p)
    | .error _ => none
  let sorted := sortProcesses sort_by processes
  { processes := pySlice sorted limit, total := sorted.length }

/-- psutil's sentinel `POWER_TIME_UNLIMITED` (remaining time unlimited,
reported while on AC power). -/
def POWER_TIME_UNLIMITED : Int := -2

/-- psutil's sentinel `POWER_TIME_UNKNOWN` (remaining time could not be
determined). -/
def POWER_TIME_UNKNOWN : Int := -1

/-- The battery reading from `psutil.sensors_battery()`. -/
structure Battery where
  percent : ℚ
  power_plugged : Bool
  secsleft : Int
deriving DecidableEq, Repr

/-- One power-hungry process record collected by `get_battery_status`. -/
structure PowerProc where
  name : String
  pid : Int
  cpu_percent : ℚ
deriving DecidableEq, Repr

/-- Descending order on CPU percentage for power-hungry processes. -/
def powerDesc (a b : PowerProc) : Prop := b.cpu_percent ≤ a.cpu_percent

instance : DecidableRel powerDesc :=
  fun a b => inferInstanceAs (Decidable (b.cpu_percent ≤ a.cpu_percent))

instance : IsTotal PowerProc powerDesc := ⟨fun a b => le_total b.cpu_percent a.cpu_percent⟩

instance : IsTrans PowerProc powerDesc := ⟨fun _ _ _ h h' => le_trans h' h⟩

/-- The `status` dictionary returned by `get_battery_status`; keys absent
from the dictionary are `none`. -/
structure BatteryStatus where
  status : String
  percent : Option ℚ := none
  power_plugged : Option Bool := none
  time_remaining : Option String := none
  power_hungry_processes : Option (List PowerProc) := none
deriving DecidableEq, Repr

/-- The time-remaining string computed at server.py lines 818-823: Python's
floor division `//` and modulo `%` are `Int.fdiv` / `Int.fmod`. -/
def timeRemainingStr (b : Battery) : String :=
  if b.secsleft ≠ POWER_TIME_UNLIMITED then
    s!"{Int.fdiv b.secsleft 3600}h {Int.fdiv (Int.fmod b.secsleft 3600) 60}m"
  else
    if b.power_plugged then "Plugged in" else "Calculating..."

/-- Embedding of `get_battery_status` (server.py lines 801-847).  `battery`
is the `psutil.sensors_battery()` reading (`none` when the host reports no
battery); `procs` is the process enumeration, failing entries being dropped
by the bare `except: pass`. -/
def get_battery_status (battery : Option Battery)
    (procs : List (Except PsError PowerProc)) : BatteryStatus :=
  match battery with
  | none => { status := "No battery detected (desktop system)" }
  | some b =>
    let power_hungry := procs.filterMap fun r =>
      match r with
      | .ok p => if 5 < p.cpu_percent then some p else none
      | .error _ => none
    let sorted := power_hungry.insertionSort powerDesc
    { status := if b.power_plugged then "Charging" else "Discharging",
      percent := some b.percent,
      power_plugged := some b.power_plugged,
      time_remaining := some (timeRemainingStr b),
      power_hungry_processes := some (sorted.take 5) }

/-- Python's float floor division `x // y` on exact rationals. -/
def pyFloorDiv (x y : ℚ) : ℚ := ((⌊x / y⌋ : ℤ) : ℚ)

/-- Python's float modulo `x % y` on exact rationals (result has the sign
of the divisor). -/
def pyMod (x y : ℚ) : ℚ := x - y * pyFloorDiv x y

/-- Python's `int()` truncation toward zero on an exact rational. -/
def pyInt (q : ℚ) : Int := q.num / (q.den : Int)

/-- The host facts read by `get_system_info`: platform strings, psutil core
counts, total RAM in bytes, the boot timestamp and the current time (both
in seconds). -/
structure SysEnv where
  os_type : String
  os_version : String
  hostname : String
  architecture : String
  processor : String
  physical_cores : Int
  logical_cores : Int
  total_ram_bytes : Int
  boot_time : ℚ
  now : ℚ
deriving DecidableEq, Repr

/-- The result assembled by `get_system_info` (the `boot_time_formatted`
datetime rendering is an opaque formatting of `boot_time` and is carried as
the raw timestamp here). -/
structure SystemInfoResult where
  os_type : String
  os_version : String
  hostname : String
  architecture : String
  processor : String
  physical_cores : Int
  logical_cores : Int
  total_ram_gb : ℚ
  boot_time : ℚ
  uptime : String
deriving DecidableEq, Repr

/-- Embedding of `get_system_info` (server.py lines 329-358): RAM converted
to GiB with two-decimal rounding, uptime split into whole days and whole
hours with Python's float `//` and `%`. -/
def get_system_info (env : SysEnv) : SystemInfoResult :=
  let uptime_seconds := env.now - env.boot_time
  let uptime_days := pyInt (pyFloorDiv uptime_seconds 86400)
  let uptime_hours := pyInt (pyFloorDiv (pyMod uptime_seconds 86400) 3600)
  { os_type := env.os_type,
    os_version := env.os_version,
    hostname := env.hostname,
    architecture := env.architecture,
    processor := env.processor,
    physical_cores := env.physical_cores,
    logical_cores := env.logical_cores,
    total_ram_gb := round2 ((env.total_ram_bytes : ℚ) / 1024 ^ 3),
    boot_time := env.boot_time,
    uptime := s!"{uptime_days} days, {uptime_hours} hours" }

/-- Spec-side rendering of whole uptime days: the floor of
`uptime_seconds / 86400` (stated from the spec's words, for comparison with
the embedded code). -/
def uptimeDaysSpec (uptime_seconds : ℚ) : ℤ := ⌊uptime_seconds / 86400⌋

/-- Spec-side rendering of whole uptime hours: the floor of the remainder
after removing whole days, divided by 3600 (stated from the spec's words,
for comparison with the embedded code). -/
def uptimeHoursSpec (uptime_seconds : ℚ) : ℤ :=
  ⌊(uptime_seconds - 86400 * ((⌊uptime_seconds / 86400⌋ : ℤ) : ℚ)) / 3600⌋

/-- Spec-side uptime string `"{days} days, {hours} hours"`. -/
def uptimeStringSpec (uptime_seconds : ℚ) : String :=
  s!"{uptimeDaysSpec uptime_seconds} days, {uptimeHoursSpec uptime_seconds} hours"

/-- The raw per-process fields requested from `psutil.process_iter` in
`diagnose_performance`. -/
structure DiagProcRaw where
  pid : Int
  name : String
  cpu_percent : ℚ
  memory_percent : ℚ
deriving DecidableEq, Repr

/-- A top-CPU process record of the diagnostics report. -/
structure TopCpuProc where
  name : String
  pid : Int
  cpu_percent : ℚ
deriving DecidableEq, Repr

/-- A top-memory process record of the diagnostics report. -/
structure TopMemProc where
  name : String
  pid : Int
  memory_percent : ℚ
deriving DecidableEq, Repr

/-- Descending order on CPU percentage for top-CPU process records. -/
def topCpuDesc (a b : TopCpuProc) : Prop := b.cpu_percent ≤ a.cpu_percent

instance : DecidableRel topCpuDesc :=
  fun a b => inferInstanceAs (Decidable (b.cpu_percent ≤ a.cpu_percent))

instance : IsTotal TopCpuProc topCpuDesc := ⟨fun a b => le_total b.cpu_percent a.cpu_percent⟩

instance : IsTrans TopCpuProc topCpuDesc := ⟨fun _ _ _ h h' => le_trans h' h⟩

/-- Descending order on memory percentage for top-memory process records. -/
def topMemDesc (a b : TopMemProc) : Prop := b.memory_percent ≤ a.memory_percent

instance : DecidableRel topMemDesc :=
  fun a b => inferInstanceAs (Decidable (b.memory_percent ≤ a.memory_percent))

instance : IsTotal TopMemProc topMemDesc := ⟨fun a b => le_total b.memory_percent a.memory_percent⟩

instance : IsTrans TopMemProc topMemDesc := ⟨fun _ _ _ h h' => le_trans h' h⟩

/-- Everything `diagnose_performance` reads from the OS: the warm-up CPU
and memory snapshot taken before the loop, the per-iteration CPU and memory
sample streams, the cumulative disk and network byte counters bracketing
the loop, and the process enumeration. -/
structure DiagEnv where
  warmupCpu : ℚ
  warmupMem : ℚ
  cpuStream : Nat → ℚ
  memStream : Nat → ℚ
  disk_read_before : Int
  disk_write_before : Int
  net_recv_before : Int
  net_sent_before : Int
  disk_read_after : Int
  disk_write_after : Int
  net_recv_after : Int
  net_sent_after : Int
  procs : List (Except PsError DiagProcRaw)

/-- The diagnostics report assembled at server.py lines 1055-1079. -/
structure Diagnostics where
  duration_seconds : Int
  cpu_average_percent : ℚ
  cpu_max_percent : ℚ
  memory_average_percent : ℚ
  memory_max_percent : ℚ
  disk_read_rate_mb_s : ℚ
  disk_write_rate_mb_s : ℚ
  net_receive_rate_mb_s : ℚ
  net_send_rate_mb_s : ℚ
  bottlenecks : List String
  recommendations : List String
  top_cpu_processes : List TopCpuProc
  top_memory_processes : List TopMemProc
deriving DecidableEq, Repr

/-- The fixed recommendation attached to `HIGH_CPU_USAGE`. -/
def recHighCpu : String :=
  "CPU is heavily utilized. Consider upgrading CPU or optimizing running applications."

/-- The fixed recommendation attached to `HIGH_MEMORY_USAGE`. -/
def recHighMem : String :=
  "Memory usage is high. Consider adding more RAM or closing memory-intensive applications."

/-- The fixed recommendation attached to `HIGH_DISK_IO`. -/
def recHighDisk : String :=
  "High disk I/O detected. Consider upgrading to SSD or optimizing disk-intensive operations."

/-- Embedding of the `try` body of `diagnose_performance` (server.py lines
983-1079).  The sampling loop runs `range(duration)` times; with
`duration ≤ 0` both sample lists are empty and the average at line 1003
raises `ZeroDivisionError`, which the model surfaces as `.error`. -/
def diagCompute (env : DiagEnv) (duration : Int) : Except String Diagnostics :=
  let _cpu_before := env.warmupCpu
  let _mem_before := env.warmupMem
  let cpu_samples := (List.range duration.toNat).map env.cpuStream
  let mem_samples := (List.range duration.toNat).map env.memStream
  if cpu_samples.length = 0 then .error "division by zero"
  else
    let avg_cpu := cpu_samples.sum / (cpu_samples.length : ℚ)
    let max_cpu := cpu_samples.foldl max (cpu_samples.headD 0)
    let avg_mem := mem_samples.sum / (mem_samples.length : ℚ)
    let max_mem := mem_samples.foldl max (mem_samples.headD 0)
    let disk_read_rate :=
      ((env.disk_read_after - env.disk_read_before : ℤ) : ℚ) / (duration : ℚ) / 1024 ^ 2
    let disk_write_rate :=
      ((env.disk_write_after - env.disk_write_before : ℤ) : ℚ) / (duration : ℚ) / 1024 ^ 2
    let net_recv_rate :=
      ((env.net_recv_after - env.net_recv_before : ℤ) : ℚ) / (duration : ℚ) / 1024 ^ 2
    let net_sent_rate :=
      ((env.net_sent_after - env.net_sent_before : ℤ) : ℚ) / (duration : ℚ) / 1024 ^ 2
    let bottlenecks :=
      (if 80 < avg_cpu then ["HIGH_CPU_USAGE"] else []) ++
      (if 85 < avg_mem then ["HIGH_MEMORY_USAGE"] else []) ++
      (if 100 < disk_read_rate ∨ 100 < disk_write_rate then ["HIGH_DISK_IO"] else [])
    let recommendations :=
      (if 80 < avg_cpu then [recHighCpu] else []) ++
      (if 85 < avg_mem then [recHighMem] else []) ++
      (if 100 < disk_read_rate ∨ 100 < disk_write_rate then [recHighDisk] else [])
    let top_cpu_procs := env.procs.filterMap fun r =>
      match r with
      | .ok p =>
        if 10 < p.cpu_percent then
          some ({ name := p.name, pid := p.pid, cpu_percent := p.cpu_percent } : TopCpuProc)
        else none
      | .error _ => none
    let top_mem_procs := env.procs.filterMap fun r =>
      match r with
      | .ok p =>
        if 5 < p.memory_percent then
          some ({ name := p.name, pid := p.pid, memory_percent := p.memory_percent } : TopMemProc)
        else none
      | .error _ => none
    .ok
      { duration_seconds := duration,
        cpu_average_percent := round2 avg_cpu,
        cpu_max_percent := round2 max_cpu,
        memory_average_percent := round2 avg_mem,
        memory_max_percent := round2 max_mem,
        disk_read_rate_mb_s := round2 disk_read_rate,
        disk_write_rate_mb_s := round2 disk_write_rate,
        net_receive_rate_mb_s := round2 net_recv_rate,
        net_send_rate_mb_s := round2 net_sent_rate,
        bottlenecks := bottlenecks,
        recommendations := recommendations,
        top_cpu_processes := (top_cpu_procs.insertionSort topCpuDesc).take 5,
        top_memory_processes := (top_mem_procs.insertionSort topMemDesc).take 5 }

/-- Embedding of the `diagnose_performance` handler: the `try` body
followed by the `except` clause, `render` standing for the `json.dumps`
serialization of a successful report. -/
def diagnose_performance (render : Diagnostics → String) (env : DiagEnv)
    (duration : Int) : List TextContent :=
  match diagCompute env duration with
  | .ok d => [{ type := "text", text := render d }]
  | .error e => [{ type := "text", text := "Error: " ++ e }]

/-- A concrete diagnostics environment (busy CPU, quiet memory and I/O)
used to instantiate the general theorems. -/
def sampleEnvBusy : DiagEnv :=
  { warmupCpu := 12, warmupMem := 34,
    cpuStream := fun _ => 90, memStream := fun _ => 50,
    disk_read_before := 0, disk_write_before := 0,
    net_recv_before := 0, net_sent_before := 0,
    disk_read_after := 0, disk_write_after := 0,
    net_recv_after := 0, net_sent_after := 0,
    procs := [] }

/-- The same concrete environment with a different warm-up snapshot. -/
def sampleEnvBusyAltWarmup : DiagEnv :=
  { sampleEnvBusy with warmupCpu := 77, warmupMem := 1 }

/-- C2: `handle_list_tools` returns the identical catalog on every call,
exactly thirteen descriptors with pairwise-distinct names, and the names
and declared schema defaults are exactly the thirteen of the spec's tool
catalog, in declaration order. -/
theorem c2_tool_catalog_fixed :
    (∀ u v : Unit, handle_list_tools u = handle_list_tools v) ∧
    (handle_list_tools ()).length = 13 ∧
    ((handle_list_tools ()).map Tool.name).Nodup ∧
    (handle_list_tools ()).map
        (fun t => (t.name, t.params.map fun p => (p.pname, p.defaultVal))) =
      [("get_system_info", []),
       ("get_cpu_metrics", [("per_core", some (.bool false)), ("interval", some (.int 1))]),
       ("get_memory_metrics", [("include_processes", some (.bool false))]),
       ("get_storage_metrics", [("include_io_stats", some (.bool false))]),
       ("get_network_metrics", [("include_connections", some (.bool false))]),
       ("get_processes", [("sort_by", some (.str "cpu")), ("limit", some (.int 20))]),
       ("get_installed_applications", [("category", some (.str "all"))]),
       ("get_battery_status", []),
       ("get_system_logs", [("log_type", some (.str "system")), ("limit", some (.int 100))]),
       ("diagnose_performance", [("duration", some (.int 5))]),
       ("get_hardware_recommendations", [("use_case", some (.str "general"))]),
       ("get_motherboard_details",
        [("include_bios", some (.bool true)), ("include_slots", some (.bool true))]),
       ("get_computer_model", [("include_details", some (.bool true))])] :=
  ⟨fun _ _ => rfl, rfl, by decide, rfl⟩

/-- C1 counterexample: the claim that every registered tool converts an
internal failure into a body containing an `"Error:"` marker fails at
`get_computer_model`: its `except` clause (server.py line 1271) renders
`"Error retrieving computer model information: {e}"`, in which the
substring `"Error:"` never occurs ("Error" is followed by a space and the
colon only appears after "information"). -/
theorem c1_dispatch_error_isolation_counterexample :
    handle_call_tool (fun _ => .error "boom") "get_computer_model" =
      .ok [{ type := "text",
             text := "Error retrieving computer model information: boom" }] ∧
    ¬ ("Error:".data <:+: "Error retrieving computer model information: boom".data) :=
  ⟨rfl, by decide⟩

/-- C1 (amended): a call with a name outside the thirteen registered tool
names fails at dispatch level with the unknown-tool error, while a call
with a registered name always returns a single text result and no
exception propagates back to the dispatcher; an internal handler failure
is absorbed into that handler's own error body — `"Error: {e}"` for eleven
tools, but `"Error retrieving computer model information: {e}"` for
`get_computer_model` and `"Error retrieving motherboard details: {e}"` for
`get_motherboard_details`, neither of which contains an `"Error:"`
marker. -/
theorem c1_dispatch_error_isolation (bodies : String → Except String String) (name : String) :
    (name ∉ registeredToolNames → handle_call_tool bodies name = .error (.unknownTool name)) ∧
    (name ∈ registeredToolNames → ∃ t : TextContent,
      handle_call_tool bodies name = .ok [t] ∧
      ∀ e, bodies name = .error e → t.text = handlerErrorText name e) := by
  constructor
  · intro h
    simp only [registeredToolNames, List.mem_cons, List.not_mem_nil, or_false, not_or] at h
    obtain ⟨h1, h2, h3, h4, h5, h6, h7, h8, h9, h10, h11, h12, h13⟩ := h
    simp [handle_call_tool, h1, h2, h3, h4, h5, h6, h7, h8, h9, h10, h11, h12, h13]
  · intro h
    simp only [registeredToolNames, List.mem_cons, List.not_mem_nil, or_false] at h
    rcases h with rfl | rfl | rfl | rfl | rfl | rfl | rfl | rfl | rfl | rfl | rfl | rfl | rfl
    all_goals
      refine ⟨_, rfl, ?_⟩
      intro e he
      simp [wrapHandler, he, handlerErrorText]

/-- C1 witness: at the concrete unknown name `"not_a_tool"` the dispatcher
fails with the unknown-tool error; at `"get_cpu_metrics"` with a forced
internal failure the call still succeeds with the `"Error: "`-prefixed
body, and at `"get_computer_model"` it succeeds with that handler's own
error body. -/
theorem c1_dispatch_error_isolation_witness :
    handle_call_tool (fun _ => .error "forced failure") "not_a_tool" =
      .error (.unknownTool "not_a_tool") ∧
    (∃ t : TextContent,
      handle_call_tool (fun _ => .error "forced failure") "get_cpu_metrics" = .ok [t] ∧
      t.text = "Error: " ++ "forced failure") ∧
    (∃ t : TextContent,
      handle_call_tool (fun _ => .error "forced failure") "get_computer_model" = .ok [t] ∧
      t.text = "Error retrieving computer model information: " ++ "forced failure") := by
  refine ⟨(c1_dispatch_error_isolation _ "not_a_tool").1 (by decide), ?_, ?_⟩
  · obtain ⟨t, h1, h2⟩ :=
      (c1_dispatch_error_isolation (fun _ => .error "forced failure") "get_cpu_metrics").2
        (by decide)
    exact ⟨t, h1, (h2 "forced failure" rfl).trans (by decide)⟩
  · obtain ⟨t, h1, h2⟩ :=
      (c1_dispatch_error_isolation (fun _ => .error "forced failure") "get_computer_model").2
        (by decide)
    exact ⟨t, h1, (h2 "forced failure" rfl).trans (by decide)⟩

/-- Auxiliary: a `filterMap` keeps exactly the entries whose image is
`some`, so its length is that count. -/
theorem filterMap_length_eq_countP {α β : Type} (f : α → Option β) (l : List α) :
    (l.filterMap f).length = l.countP fun a => (f a).isSome := by
  induction l with
  | nil => simp
  | cons a l ih =>
    cases h : f a with
    | none => simp [List.filterMap_cons, List.countP_cons, h, ih]
    | some b => simp [List.filterMap_cons, List.countP_cons, h, ih]

/-- Auxiliary: the sort step of `get_processes` never changes the length of
the process list. -/
theorem sortProcesses_length (sort_by : String) (l : List ProcEntry) :
    (sortProcesses sort_by l).length = l.length := by
  unfold sortProcesses
  split_ifs <;> simp [List.length_insertionSort]

/-- Auxiliary: the `"cpu"` branch of the sort step. -/
theorem sortProcesses_cpu (l : List ProcEntry) :
    sortProcesses "cpu" l = l.insertionSort cpuDesc := rfl

/-- Auxiliary: the `"memory"` branch of the sort step. -/
theorem sortProcesses_memory (l : List ProcEntry) :
    sortProcesses "memory" l = l.insertionSort memDesc := rfl

/-- Auxiliary: the `"name"` branch of the sort step. -/
theorem sortProcesses_name (l : List ProcEntry) :
    sortProcesses "name" l = l.insertionSort nameAsc := rfl

/-- Auxiliary: the `"pid"` branch of the sort step. -/
theorem sortProcesses_pid (l : List ProcEntry) :
    sortProcesses "pid" l = l.insertionSort pidAsc := rfl

/-- C3 counterexample: the claim "the returned list's length is at most
`limit`" fails at `limit = -1`.  Python's `processes[:-1]` drops one
element from the end, so two enumerated processes yield a returned list of
length `1`, and `1 ≤ -1` is false. -/
theorem c3_processes_counterexample :
    ((get_processes
        [.ok { pid := 1, name := "a", cpu_percent := 9, memory_percent := 1,
               status := "running", num_threads := 1, created := "t1" },
         .ok { pid := 2, name := "b", cpu_percent := 3, memory_percent := 2,
               status := "running", num_threads := 1, created := "t2" }]
        "cpu" (-1)).processes.length : Int) = 1 ∧
    ¬ (((get_processes
        [.ok { pid := 1, name := "a", cpu_percent := 9, memory_percent := 1,
               status := "running", num_threads := 1, created := "t1" },
         .ok { pid := 2, name := "b", cpu_percent := 3, memory_percent := 2,
               status := "running", num_threads := 1, created := "t2" }]
        "cpu" (-1)).processes.length : Int) ≤ -1) := by
  have hlen : (get_processes
      [.ok { pid := 1, name := "a", cpu_percent := 9, memory_percent := 1,
             status := "running", num_threads := 1, created := "t1" },
       .ok { pid := 2, name := "b", cpu_percent := 3, memory_percent := 2,
             status := "running", num_threads := 1, created := "t2" }]
      "cpu" (-1)).processes.length = 1 := by
    show (pySlice (sortProcesses "cpu" _) (-1)).length = 1
    rw [pySlice, if_neg (by decide)]
    rw [List.length_take, sortProcesses_length]
    rfl
  refine ⟨by rw [hlen]; rfl, by rw [hlen]; decide⟩

/-- C3 (amended): for every non-negative `limit`, the list returned by
`get_processes` is sorted ascending on name for `sort_by = "name"`,
ascending on pid for `"pid"`, descending on (rounded) CPU percentage for
`"cpu"` and descending on (rounded) memory percentage for `"memory"`, its
length is at most `limit`, and the returned `total` is the number of
successfully enumerated processes before truncation, hence at least the
returned list's length.  (A negative `limit` instead drops `|limit|`
entries from the end, per Python slice semantics.) -/
theorem c3_processes_sorted_truncated (procIter : List (Except PsError RawProc))
    (sort_by : String) (limit : Int) (hl : 0 ≤ limit) :
    (sort_by = "name" → (get_processes procIter sort_by limit).processes.Sorted nameAsc) ∧
    (sort_by = "pid" → (get_processes procIter sort_by limit).processes.Sorted pidAsc) ∧
    (sort_by = "cpu" → (get_processes procIter sort_by limit).processes.Sorted cpuDesc) ∧
    (sort_by = "memory" → (get_processes procIter sort_by limit).processes.Sorted memDesc) ∧
    ((get_processes procIter sort_by limit).processes.length : Int) ≤ limit ∧
    (get_processes procIter sort_by limit).total =
      (procIter.countP fun r => r.toOption.isSome) ∧
    (get_processes procIter sort_by limit).processes.length ≤
      (get_processes procIter sort_by limit).total := by
  have hslice : ∀ l : List ProcEntry, pySlice l limit = l.take limit.toNat := by
    intro l; simp [pySlice, hl]
  refine ⟨?_, ?_, ?_, ?_, ?_, ?_, ?_⟩
  · rintro rfl
    show (pySlice (sortProcesses "name" _) limit).Sorted nameAsc
    rw [hslice, sortProcesses_name]
    exact List.Pairwise.sublist (List.take_sublist _ _) (List.sorted_insertionSort nameAsc _)
  · rintro rfl
    show (pySlice (sortProcesses "pid" _) limit).Sorted pidAsc
    rw [hslice, sortProcesses_pid]
    exact List.Pairwise.sublist (List.take_sublist _ _) (List.sorted_insertionSort pidAsc _)
  · rintro rfl
    show (pySlice (sortProcesses "cpu" _) limit).Sorted cpuDesc
    rw [hslice, sortProcesses_cpu]
    exact List.Pairwise.sublist (List.take_sublist _ _) (List.sorted_insertionSort cpuDesc _)
  · rintro rfl
    show (pySlice (sortProcesses "memory" _) limit).Sorted memDesc
    rw [hslice, sortProcesses_memory]
    exact List.Pairwise.sublist (List.take_sublist _ _) (List.sorted_insertionSort memDesc _)
  · have hle : (get_processes procIter sort_by limit).processes.length ≤ limit.toNat := by
      show (pySlice (sortProcesses sort_by _) limit).length ≤ limit.toNat
      rw [hslice, List.length_take]
      exact Nat.min_le_left _ _
    calc ((get_processes procIter sort_by limit).processes.length : Int)
        ≤ (limit.toNat : Int) := by exact_mod_cast hle
      _ = limit := Int.toNat_of_nonneg hl
  · show (sortProcesses sort_by _).length = _
    rw [sortProcesses_length, filterMap_length_eq_countP]
    congr 1
    funext r
    cases r <;> simp [Except.toOption]
  · show (pySlice (sortProcesses sort_by _) limit).length ≤ (sortProcesses sort_by _).length
    rw [hslice, List.length_take]
    exact Nat.min_le_right _ _

/-- C3 witness: at two concrete enumerated processes (one entry access
denied), `sort_by = "cpu"` and `limit = 1`, the amended theorem yields a
returned length of at most `1`. -/
theorem c3_processes_sorted_truncated_witness :
    (0 : Int) ≤ 1 ∧
    ((get_processes
        [.ok { pid := 1, name := "a", cpu_percent := 9, memory_percent := 1,
               status := "running", num_threads := 1, created := "t1" },
         .error .accessDenied,
         .ok { pid := 2, name := "b", cpu_percent := 3, memory_percent := 2,
               status := "running", num_threads := 1, created := "t2" }]
        "cpu" 1).processes.length : Int) ≤ 1 :=
  ⟨by decide,
   (c3_processes_sorted_truncated
      [.ok { pid := 1, name := "a", cpu_percent := 9, memory_percent := 1,
             status := "running", num_threads := 1, created := "t1" },
       .error .accessDenied,
       .ok { pid := 2, name := "b", cpu_percent := 3, memory_percent := 2,
             status := "running", num_threads := 1, created := "t2" }]
      "cpu" 1 (by decide)).2.2.2.2.1⟩

/-- C9: a `sort_by` outside the four recognised values leaves the process
list in enumeration order — no sorting, same truncation, same total — and
the call still succeeds. -/
theorem c9_unrecognised_sort_by (procIter : List (Except PsError RawProc))
    (sort_by : String) (limit : Int)
    (h1 : sort_by ≠ "cpu") (h2 : sort_by ≠ "memory")
    (h3 : sort_by ≠ "name") (h4 : sort_by ≠ "pid") :
    get_processes procIter sort_by limit =
      { processes := pySlice (procIter.filterMap fun r =>
          match r with
          | .ok p => some (buildProcEntry p)
          | .error _ => none) limit,
        total := (procIter.filterMap fun r =>
          match r with
          | .ok p => some (buildProcEntry p)
          | .error _ => none).length } := by
  simp [get_processes, sortProcesses, h1, h2, h3, h4]

/-- C9 witness: at the concrete unrecognised value `sort_by = "bogus"` the
process list comes back in enumeration order, truncated, with the full
total. -/
theorem c9_unrecognised_sort_by_witness :
    get_processes
        [.ok { pid := 2, name := "b", cpu_percent := 3, memory_percent := 2,
               status := "running", num_threads := 1, created := "t2" },
         .ok { pid := 1, name := "a", cpu_percent := 9, memory_percent := 1,
               status := "running", num_threads := 1, created := "t1" }]
        "bogus" 1 =
      { processes := [buildProcEntry
          { pid := 2, name := "b", cpu_percent := 3, memory_percent := 2,
            status := "running", num_threads := 1, created := "t2" }],
        total := 2 } := by
  rw [c9_unrecognised_sort_by _ "bogus" 1 (by decide) (by decide) (by decide) (by decide)]
  rfl

/-- Auxiliary: the singleton sampling range of a one-second run. -/
theorem range_one_eq : List.range 1 = [0] := rfl

/-- C5: for every `duration ≤ 0` the sampling loop of
`diagnose_performance` takes no samples, the average at line 1003 divides
by zero, and the handler's `except` clause converts this into an error
text result: the call is rejected with an error body and no exception
propagates (the handler returns a normal text result). -/
theorem c5_nonpositive_duration_rejected (render : Diagnostics → String) (env : DiagEnv)
    (duration : Int) (h : duration ≤ 0) :
    diagnose_performance render env duration =
      [{ type := "text", text := "Error: division by zero" }] := by
  have hz : duration.toNat = 0 := Int.toNat_of_nonpos h
  simp [diagnose_performance, diagCompute, hz]

/-- C5 witness: a concrete environment with `duration = 0` yields the
error text result. -/
theorem c5_nonpositive_duration_rejected_witness :
    (0 : Int) ≤ 0 ∧
    diagnose_performance (fun _ => "report") sampleEnvBusy 0 =
      [{ type := "text", text := "Error: division by zero" }] :=
  ⟨le_refl 0, c5_nonpositive_duration_rejected (fun _ => "report") sampleEnvBusy 0 (le_refl 0)⟩

/-- C6: with `duration = 1` the sampling loop collects exactly one CPU
sample and one memory sample, the diagnostics succeed, and the reported
(rounded) average equals the reported (rounded) maximum for both the CPU
and the memory series. -/
theorem c6_single_sample_avg_eq_max (env : DiagEnv) :
    ((List.range (Int.toNat 1)).map env.cpuStream).length = 1 ∧
    ((List.range (Int.toNat 1)).map env.memStream).length = 1 ∧
    ∃ d, diagCompute env 1 = .ok d ∧
      d.cpu_average_percent = d.cpu_max_percent ∧
      d.memory_average_percent = d.memory_max_percent := by
  refine ⟨rfl, rfl, _, rfl, ?_, ?_⟩ <;>
    simp [diagCompute, range_one_eq, max_self]

/-- C4: for every positive duration the diagnostics succeed and flag
`HIGH_CPU_USAGE` exactly when the CPU sample average strictly exceeds 80,
`HIGH_MEMORY_USAGE` exactly when the memory sample average strictly
exceeds 85, and `HIGH_DISK_IO` exactly when the disk read or the disk
write rate `(after - before) / duration` in MB/s strictly exceeds 100;
each flag is accompanied by its fixed recommendation string and no other
flags are produced. -/
theorem c4_bottleneck_thresholds (env : DiagEnv) (duration : Int) (hd : 0 < duration) :
    ∃ d, diagCompute env duration = .ok d ∧
      (("HIGH_CPU_USAGE" ∈ d.bottlenecks) ↔
        80 < ((List.range duration.toNat).map env.cpuStream).sum /
          (((List.range duration.toNat).map env.cpuStream).length : ℚ)) ∧
      (("HIGH_MEMORY_USAGE" ∈ d.bottlenecks) ↔
        85 < ((List.range duration.toNat).map env.memStream).sum /
          (((List.range duration.toNat).map env.memStream).length : ℚ)) ∧
      (("HIGH_DISK_IO" ∈ d.bottlenecks) ↔
        (100 < ((env.disk_read_after - env.disk_read_before : ℤ) : ℚ) /
            (duration : ℚ) / 1024 ^ 2 ∨
         100 < ((env.disk_write_after - env.disk_write_before : ℤ) : ℚ) /
            (duration : ℚ) / 1024 ^ 2)) ∧
      ((recHighCpu ∈ d.recommendations) ↔ ("HIGH_CPU_USAGE" ∈ d.bottlenecks)) ∧
      ((recHighMem ∈ d.recommendations) ↔ ("HIGH_MEMORY_USAGE" ∈ d.bottlenecks)) ∧
      ((recHighDisk ∈ d.recommendations) ↔ ("HIGH_DISK_IO" ∈ d.bottlenecks)) ∧
      (∀ b ∈ d.bottlenecks,
        b = "HIGH_CPU_USAGE" ∨ b = "HIGH_MEMORY_USAGE" ∨ b = "HIGH_DISK_IO") := by
  have hne : ¬ (((List.range duration.toNat).map env.cpuStream).length = 0) := by
    simp only [List.length_map, List.length_range, Int.toNat_eq_zero, not_le]
    exact hd
  unfold diagCompute
  rw [if_neg hne]
  refine ⟨_, rfl, ?_, ?_, ?_, ?_, ?_, ?_, ?_⟩
  · split_ifs <;> simp_all
  · split_ifs <;> simp_all
  · split_ifs <;> simp_all
  · split_ifs <;> simp_all [recHighCpu, recHighMem, recHighDisk]
  · split_ifs <;> simp_all [recHighCpu, recHighMem, recHighDisk]
  · split_ifs <;> simp_all [recHighCpu, recHighMem, recHighDisk]
  · split_ifs <;> intro b hb <;> simp at hb <;> tauto

/-- C4 witness: with a constant 90 percent CPU stream and all counters
quiet, a one-second run flags `HIGH_CPU_USAGE`. -/
theorem c4_bottleneck_thresholds_witness :
    ∃ d, diagCompute sampleEnvBusy 1 = .ok d ∧ "HIGH_CPU_USAGE" ∈ d.bottlenecks := by
  obtain ⟨d, hok, h1, -, -, -, -, -, -⟩ :=
    c4_bottleneck_thresholds sampleEnvBusy 1 (by decide)
  refine ⟨d, hok, h1.mpr ?_⟩
  norm_num [sampleEnvBusy, range_one_eq]

/-- C10: the warm-up CPU and memory readings taken before the sampling
loop have no influence on the diagnostics output: two environments that
agree on the sample streams, the I/O counter snapshots and the process
enumeration — but may differ arbitrarily in the warm-up readings — yield
identical results. -/
theorem c10_warmup_snapshot_irrelevant (render : Diagnostics → String) (e1 e2 : DiagEnv)
    (duration : Int)
    (hc : e1.cpuStream = e2.cpuStream) (hm : e1.memStream = e2.memStream)
    (hdr : e1.disk_read_before = e2.disk_read_before)
    (hdw : e1.disk_write_before = e2.disk_write_before)
    (hnr : e1.net_recv_before = e2.net_recv_before)
    (hns : e1.net_sent_before = e2.net_sent_before)
    (hdra : e1.disk_read_after = e2.disk_read_after)
    (hdwa : e1.disk_write_after = e2.disk_write_after)
    (hnra : e1.net_recv_after = e2.net_recv_after)
    (hnsa : e1.net_sent_after = e2.net_sent_after)
    (hp : e1.procs = e2.procs) :
    diagnose_performance render e1 duration = diagnose_performance render e2 duration := by
  cases e1
  cases e2
  dsimp only at hc hm hdr hdw hnr hns hdra hdwa hnra hnsa hp
  subst hc hm hdr hdw hnr hns hdra hdwa hnra hnsa hp
  rfl

/-- C10 witness: the concrete busy environment and its copy with a
different warm-up snapshot produce the same report. -/
theorem c10_warmup_snapshot_irrelevant_witness :
    diagnose_performance (fun _ => "report") sampleEnvBusy 1 =
      diagnose_performance (fun _ => "report") sampleEnvBusyAltWarmup 1 :=
  c10_warmup_snapshot_irrelevant (fun _ => "report") sampleEnvBusy sampleEnvBusyAltWarmup 1
    rfl rfl rfl rfl rfl rfl rfl rfl rfl rfl rfl

/-- C7 counterexample: psutil's `POWER_TIME_UNKNOWN` (= -1) is an
indeterminate remaining time, but the code only special-cases
`POWER_TIME_UNLIMITED` (= -2), so an unknown remaining time on battery
power is rendered through Python's floor division as `"-1h 59m"` — neither
the `"Calculating..."` nor the `"Plugged in"` sentinel the claim requires
for indeterminate readings. -/
theorem c7_battery_counterexample :
    (get_battery_status
        (some { percent := 50, power_plugged := false, secsleft := POWER_TIME_UNKNOWN })
        []).time_remaining = some "-1h 59m" ∧
    ("-1h 59m" : String) ≠ "Calculating..." ∧
    ("-1h 59m" : String) ≠ "Plugged in" := by
  refine ⟨?_, by decide, by decide⟩
  show some (timeRemainingStr _) = _
  rw [timeRemainingStr, if_pos (by decide)]
  rfl

/-- C7 (amended): with no battery the result is only the no-battery
sentinel status — no percent, plugged, time or process fields — and not an
error; with a battery the result carries the percent, the plugged state
and the derived status, the time-remaining field is the
`"Plugged in"`/`"Calculating..."` sentinel exactly when `secsleft` equals
`POWER_TIME_UNLIMITED` and otherwise the `"{h}h {m}m"` rendering under
Python floor division — including for the indeterminate
`POWER_TIME_UNKNOWN` reading — and the power-hungry list holds exactly
enumerated processes above 5 percent CPU, sorted descending by CPU,
truncated to the top five. -/
theorem c7_battery_status (battery : Option Battery)
    (procs : List (Except PsError PowerProc)) :
    (battery = none →
      get_battery_status battery procs =
        { status := "No battery detected (desktop system)" }) ∧
    (∀ b, battery = some b →
      ∃ ph : List PowerProc,
        get_battery_status battery procs =
          { status := if b.power_plugged then "Charging" else "Discharging",
            percent := some b.percent,
            power_plugged := some b.power_plugged,
            time_remaining := some (timeRemainingStr b),
            power_hungry_processes := some ph } ∧
        (b.secsleft = POWER_TIME_UNLIMITED →
          timeRemainingStr b = if b.power_plugged then "Plugged in" else "Calculating...") ∧
        (b.secsleft ≠ POWER_TIME_UNLIMITED →
          timeRemainingStr b =
            s!"{Int.fdiv b.secsleft 3600}h {Int.fdiv (Int.fmod b.secsleft 3600) 60}m") ∧
        ph.Sorted powerDesc ∧
        ph.length ≤ 5 ∧
        (∀ p ∈ ph, 5 < p.cpu_percent)) := by
  constructor
  · rintro rfl
    rfl
  · rintro b rfl
    refine ⟨_, rfl, ?_, ?_, ?_, ?_, ?_⟩
    · intro h
      rw [timeRemainingStr, if_neg (not_not_intro h)]
    · intro h
      rw [timeRemainingStr, if_pos h]
    · exact List.Pairwise.sublist (List.take_sublist _ _)
        (List.sorted_insertionSort powerDesc _)
    · calc (List.take 5 _).length ≤ 5 := by
            rw [List.length_take]; exact Nat.min_le_left _ _
        _ ≤ 5 := le_refl 5
    · intro p hp
      have hp2 : p ∈ (procs.filterMap fun r =>
          match r with
          | .ok q => if 5 < q.cpu_percent then some q else none
          | .error _ => none).insertionSort powerDesc := List.mem_of_mem_take hp
      rw [List.mem_insertionSort] at hp2
      obtain ⟨r, hr, hfr⟩ := List.mem_filterMap.mp hp2
      cases r with
      | ok q =>
        by_cases h5 : 5 < q.cpu_percent
        · simp only [h5, if_true, Option.some.injEq] at hfr
          exact hfr ▸ h5
        · simp [h5] at hfr
      | error e => simp at hfr

/-- C7 witness: a concrete discharging battery with 30 minutes left and
one enumerated process above the 5 percent threshold. -/
theorem c7_battery_status_witness :
    ∃ ph : List PowerProc,
      get_battery_status (some { percent := 42, power_plugged := false, secsleft := 1800 })
          [.ok { name := "browser", pid := 7, cpu_percent := 12 }] =
        { status := "Discharging",
          percent := some 42,
          power_plugged := some false,
          time_remaining := some (timeRemainingStr
            { percent := 42, power_plugged := false, secsleft := 1800 }),
          power_hungry_processes := some ph } ∧
      ph.Sorted powerDesc ∧ ph.length ≤ 5 := by
  obtain ⟨ph, heq, -, -, hs, hl, -⟩ :=
    (c7_battery_status
        (some { percent := 42, power_plugged := false, secsleft := 1800 })
        [.ok { name := "browser", pid := 7, cpu_percent := 12 }]).2
      { percent := 42, power_plugged := false, secsleft := 1800 } rfl
  exact ⟨ph, heq, hs, hl⟩

/-- C8: the uptime rendered by `get_system_info` is exactly
`"{days} days, {hours} hours"` with whole days `⌊uptime / 86400⌋` and
whole hours the floor of the remainder-after-days divided by 3600; the
hours component always lies in `[0, 24)`, so it is the remainder-based
count, not total hours. -/
theorem c8_uptime_days_hours (env : SysEnv) :
    (get_system_info env).uptime = uptimeStringSpec (env.now - env.boot_time) ∧
    0 ≤ uptimeHoursSpec (env.now - env.boot_time) ∧
    uptimeHoursSpec (env.now - env.boot_time) < 24 := by
  have hint : ∀ n : ℤ, pyInt ((n : ℤ) : ℚ) = n := by
    intro n
    simp [pyInt]
  have hr : env.now - env.boot_time -
      86400 * ((⌊(env.now - env.boot_time) / 86400⌋ : ℤ) : ℚ) =
      86400 * Int.fract ((env.now - env.boot_time) / 86400) := by
    rw [Int.fract]
    rw [mul_sub]
    rw [mul_div_cancel₀ _ (by norm_num : (86400 : ℚ) ≠ 0)]
  have hd : pyInt (pyFloorDiv (env.now - env.boot_time) 86400) =
      uptimeDaysSpec (env.now - env.boot_time) := by
    simp only [pyFloorDiv, uptimeDaysSpec]
    exact hint _
  have hh : pyInt (pyFloorDiv (pyMod (env.now - env.boot_time) 86400) 3600) =
      uptimeHoursSpec (env.now - env.boot_time) := by
    simp only [pyFloorDiv, pyMod, uptimeHoursSpec]
    exact hint _
  refine ⟨?_, ?_, ?_⟩
  · simp only [get_system_info, uptimeStringSpec]
    rw [hd, hh]
  · rw [uptimeHoursSpec, hr]
    refine Int.le_floor.mpr ?_
    have h0 := Int.fract_nonneg ((env.now - env.boot_time) / 86400)
    push_cast
    linarith
  · rw [uptimeHoursSpec, hr]
    refine Int.floor_lt.mpr ?_
    rw [div_lt_iff₀ (by norm_num : (0:ℚ) < 3600)]
    calc 86400 * Int.fract ((env.now - env.boot_time) / 86400)
        < 86400 * 1 := by
          have := Int.fract_lt_one ((env.now - env.boot_time) / 86400)
          nlinarith [Int.fract_nonneg ((env.now - env.boot_time) / 86400)]
      _ ≤ 24 * 3600 := by norm_num

end SysDiag
